import Mathlib

set_option maxRecDepth 10000

/-!
Verification of `feedback_scanner.py`.

The program is a single function `get_fbla_feedback_report` that prints
three progress lines, sleeps, and returns a fixed nested dictionary, plus
an entry point that prints banner lines and the report serialized with
`json.dumps(report, indent=2)`.

We embed the dictionary values as a `Json` inductive (the report only
contains strings, sequences and string-keyed maps), translate the literal
report, the `json.dumps(·, indent=2)` serializer and the stdout of the
entry point, and prove the claims about them.
-/

/-- JSON-like values, covering the shapes used by the report: strings,
ordered sequences, and maps with string keys kept in insertion order. -/
inductive Json where
  | str (s : String)
  | arr (items : List Json)
  | obj (fields : List (String × Json))

/-- The three progress lines printed by `get_fbla_feedback_report`
(lines 9, 11, 13 of the source) before the report is built. -/
def scanner_progress_lines : List String :=
  ["Initializng FBLA Feedback Scanner v1.0...",
   "Scanning r/FBLA and FBLA Connect discussions...",
   "Extracting key pain points and engagement metrics..."]

/-- The report literal built and returned by `get_fbla_feedback_report`
(lines 16-54 of the source). The Python function takes no arguments;
`Unit` stands for an invocation. -/
def get_fbla_feedback_report (_u : Unit) : Json :=
  Json.obj [
    ("metadata", Json.obj [
      ("source", Json.str ("Reddit, FBLA Connect, Member Forums")),
      ("report_date", Json.str ("2026-01-03")),
      ("search_categories", Json.arr [
        Json.str ("Engagement"), Json.str ("Events"),
        Json.str ("Judging"), Json.str ("Logistics")])]),
    ("findings", Json.arr [
      Json.obj [
        ("category", Json.str ("Event Engagement")),
        ("issue", Json.str ("Disorganized Opening/Closing ceremonies")),
        ("feedback", Json.str ("Members feel ceremonies are often too loud or chaotic, leading to low engagement.")),
        ("sentiment", Json.str ("Negative"))],
      Json.obj [
        ("category", Json.str ("Competition")),
        ("issue", Json.str ("Judging Inconsistency")),
        ("feedback", Json.str ("Concerns about judges not following rubrics strictly or being distracted by devices.")),
        ("sentiment", Json.str ("Critical"))],
      Json.obj [
        ("category", Json.str ("Networking")),
        ("issue", Json.str ("Chaotic Pin Trading")),
        ("feedback", Json.str ("Pin trading is highly popular but often blocks hallways or lacks a designated system.")),
        ("sentiment", Json.str ("Mixed"))],
      Json.obj [
        ("category", Json.str ("Logistics")),
        ("issue", Json.str ("Venue Navigation")),
        ("feedback", Json.str ("Large conference venues can be confusing, making it hard to find competition rooms on time.")),
        ("sentiment", Json.str ("Negative"))]]),
    ("recommendations", Json.arr [
      Json.str ("Implement a \x27Ceremony Focus Mode\x27 to reward attention."),
      Json.str ("Create a \x27Digital Pin Marketplace\x27 to supplement physical trading."),
      Json.str ("Provide real-time \x27Wayfinding\x27 for ceremony/competition rooms.")])]

/-- Hexadecimal digit used by the `\uXXXX` escapes of `json.dumps`. -/
def hexDigit (n : Nat) : Char :=
  if n < 10 then Char.ofNat (48 + n) else Char.ofNat (87 + n)

/-- Escaping of one character inside a JSON string literal, as done by
`json.dumps` with its default `ensure_ascii=True`: the two-character
escapes for quote, backslash and common control characters, `\u00XX` for
the remaining control characters, `\uXXXX` for non-ASCII characters
(surrogate pairs above the BMP), and the character itself otherwise. -/
def escapeChar (c : Char) : List Char :=
  if c = '\x22' then ['\x5c', '\x22']
  else if c = '\x5c' then ['\x5c', '\x5c']
  else if c = '\x08' then ['\x5c', 'b']
  else if c = '\x09' then ['\x5c', 't']
  else if c = '\x0a' then ['\x5c', 'n']
  else if c = '\x0c' then ['\x5c', 'f']
  else if c = '\x0d' then ['\x5c', 'r']
  else if c.toNat < 32 then
    ['\x5c', 'u', '0', '0', hexDigit (c.toNat / 16), hexDigit (c.toNat % 16)]
  else if c.toNat < 127 then [c]
  else if c.toNat < 65536 then
    ['\x5c', 'u', hexDigit (c.toNat / 4096 % 16), hexDigit (c.toNat / 256 % 16),
     hexDigit (c.toNat / 16 % 16), hexDigit (c.toNat % 16)]
  else
    let v := c.toNat - 65536
    let hi := 55296 + v / 1024
    let lo := 56320 + v % 1024
    ['\x5c', 'u', hexDigit (hi / 4096 % 16), hexDigit (hi / 256 % 16),
     hexDigit (hi / 16 % 16), hexDigit (hi % 16),
     '\x5c', 'u', hexDigit (lo / 4096 % 16), hexDigit (lo / 256 % 16),
     hexDigit (lo / 16 % 16), hexDigit (lo % 16)]

/-- A JSON string literal: quote, escaped characters, quote. -/
def quoteString (s : String) : String :=
  String.mk ('\x22' :: (s.data.map escapeChar).flatten ++ ['\x22'])

/-- Indentation of `n` spaces. -/
def indentStr (n : Nat) : String := String.mk (List.replicate n ' ')

mutual
/-- Serialization of a value at nesting level `lvl`, following
`json.dumps(·, indent=2)`: non-empty containers open on their own line,
items are indented two spaces further and separated by `,` before a line
break, keys use the `": "` separator, and the closing bracket returns to
the container level. -/
def dumpVal : Json → Nat → String
  | Json.str s, _ => quoteString s
  | Json.arr [], _ => "[]"
  | Json.arr (x :: xs), lvl =>
      "[\n" ++ indentStr (2 * (lvl + 1)) ++ dumpVal x (lvl + 1) ++
        dumpArrRest xs (lvl + 1) ++ "\n" ++ indentStr (2 * lvl) ++ "]"
  | Json.obj [], _ => "\x7b\x7d"
  | Json.obj ((k, v) :: xs), lvl =>
      "\x7b\n" ++ indentStr (2 * (lvl + 1)) ++ quoteString k ++ ": " ++
        dumpVal v (lvl + 1) ++ dumpObjRest xs (lvl + 1) ++ "\n" ++
        indentStr (2 * lvl) ++ "\x7d"

/-- Remaining sequence items, each preceded by `,`, a line break and the
item indentation. -/
def dumpArrRest : List Json → Nat → String
  | [], _ => ""
  | x :: xs, lvl =>
      ",\n" ++ indentStr (2 * lvl) ++ dumpVal x lvl ++ dumpArrRest xs lvl

/-- Remaining map entries, each preceded by `,`, a line break and the
entry indentation. -/
def dumpObjRest : List (String × Json) → Nat → String
  | [], _ => ""
  | (k, v) :: xs, lvl =>
      ",\n" ++ indentStr (2 * lvl) ++ quoteString k ++ ": " ++
        dumpVal v lvl ++ dumpObjRest xs lvl
end

/-- Top-level serialization, `json.dumps(x, indent=2)` (line 61). -/
def json_dumps (j : Json) : String := dumpVal j 0

/-- The banner line printed by the entry point: `"=" * 40` (lines 58, 60,
62 of the source). -/
def banner : String := String.mk (List.replicate 40 '=')

/-- The strings passed to `print` by the entry point, in order
(lines 56-63 of the source, the progress lines printed inside
`get_fbla_feedback_report` included). Each `print` call appends one line
break after its argument. -/
def printed_strings (u : Unit) : List String :=
  scanner_progress_lines ++
    ["\n" ++ banner,
     "FBLA MEMBER ENGAGEMENT ANALYSIS REPORT",
     banner,
     json_dumps (get_fbla_feedback_report u),
     banner,
     "\nREPORT COMPLETE: Ready for Judge Review."]

/-- The entry point: standard output (every printed string followed by a
line break) paired with the process exit status. The script contains no
raising operation and no explicit exit call, so it falls off the end and
exits with status 0. -/
def fbla_main (u : Unit) : String × Nat :=
  (String.join ((printed_strings u).map (fun s => s ++ "\n")), 0)

/-- Standard output of one run of the entry point. -/
def fbla_stdout : String := (fbla_main ()).1

/-- Modelled from the spec: section 8 asks that "serializing the Report
and parsing it back (round trip through the textual form) yields a
structure equal to the original Report", but the repository contains no
parsing code (the script only serializes, via `json.dumps` on line 61).
This parser models the reading direction of that textual form, accepting
the JSON fragment the Report lives in: strings with the standard escapes,
sequences and string-keyed maps, with insignificant whitespace. Here
`skipWs` drops the whitespace characters JSON allows between tokens. -/
def skipWs : List Char → List Char
  | [] => []
  | c :: cs =>
      if c = ' ' ∨ c = '\x09' ∨ c = '\x0a' ∨ c = '\x0d' then skipWs cs
      else c :: cs

/-- Value of a hexadecimal digit, if any. -/
def hexVal (c : Char) : Option Nat :=
  if 48 ≤ c.toNat ∧ c.toNat ≤ 57 then some (c.toNat - 48)
  else if 97 ≤ c.toNat ∧ c.toNat ≤ 102 then some (c.toNat - 87)
  else if 65 ≤ c.toNat ∧ c.toNat ≤ 70 then some (c.toNat - 55)
  else none

/-- Single-character string escapes: the inverse of the two-character
escapes emitted by `escapeChar`, plus the `\/` escape JSON also allows. -/
def unescapeChar (c : Char) : Option Char :=
  if c = '\x22' then some '\x22'
  else if c = '\x5c' then some '\x5c'
  else if c = '/' then some '/'
  else if c = 'b' then some '\x08'
  else if c = 't' then some '\x09'
  else if c = 'n' then some '\x0a'
  else if c = 'f' then some '\x0c'
  else if c = 'r' then some '\x0d'
  else none

/-- Body of a string literal after its opening quote: the decoded
characters up to the closing quote, and the rest of the input. -/
def parseStringBody : List Char → Option (List Char × List Char)
  | [] => none
  | '\x5c' :: 'u' :: h1 :: h2 :: h3 :: h4 :: rest =>
      match hexVal h1, hexVal h2, hexVal h3, hexVal h4, parseStringBody rest with
      | some a, some b, some c, some d, some (s, r) =>
          some (Char.ofNat (((a * 16 + b) * 16 + c) * 16 + d) :: s, r)
      | _, _, _, _, _ => none
  | '\x5c' :: e :: rest =>
      match unescapeChar e, parseStringBody rest with
      | some c, some (s, r) => some (c :: s, r)
      | _, _ => none
  | c :: rest =>
      if c = '\x22' then some ([], rest)
      else
        match parseStringBody rest with
        | some (s, r) => some (c :: s, r)
        | none => none

mutual
/-- One value: a string literal, a sequence or a map, after optional
leading whitespace. `fuel` bounds the recursion depth; it only runs out
on inputs longer than the fuel, never on a serialized Report. -/
def parseValue : Nat → List Char → Option (Json × List Char)
  | 0, _ => none
  | fuel + 1, input =>
      match skipWs input with
      | [] => none
      | c :: cs =>
          if c = '\x22' then
            match parseStringBody cs with
            | some (s, r) => some (Json.str (String.mk s), r)
            | none => none
          else if c = '[' then
            match skipWs cs with
            | ']' :: r => some (Json.arr [], r)
            | rest =>
                match parseItems fuel rest with
                | some (items, r) => some (Json.arr items, r)
                | none => none
          else if c = '\x7b' then
            match skipWs cs with
            | '\x7d' :: r => some (Json.obj [], r)
            | rest =>
                match parseFields fuel rest with
                | some (fields, r) => some (Json.obj fields, r)
                | none => none
          else none

/-- One or more comma-separated sequence items, up to and including the
closing bracket. -/
def parseItems : Nat → List Char → Option (List Json × List Char)
  | 0, _ => none
  | fuel + 1, input =>
      match parseValue fuel input with
      | none => none
      | some (j, r) =>
          match skipWs r with
          | ',' :: r2 =>
              match parseItems fuel r2 with
              | some (js, r3) => some (j :: js, r3)
              | none => none
          | ']' :: r2 => some ([j], r2)
          | _ => none

/-- One or more comma-separated `"key": value` map entries, up to and
including the closing brace. -/
def parseFields : Nat → List Char → Option (List (String × Json) × List Char)
  | 0, _ => none
  | fuel + 1, input =>
      match skipWs input with
      | [] => none
      | c :: cs =>
          if c = '\x22' then
            match parseStringBody cs with
            | none => none
            | some (k, r) =>
                match skipWs r with
                | ':' :: r2 =>
                    match parseValue fuel r2 with
                    | none => none
                    | some (v, r3) =>
                        match skipWs r3 with
                        | ',' :: r4 =>
                            match parseFields fuel r4 with
                            | some (fs, r5) => some ((String.mk k, v) :: fs, r5)
                            | none => none
                        | '\x7d' :: r4 => some ([(String.mk k, v)], r4)
                        | _ => none
                | _ => none
          else none
end

/-- Modelled from the spec: parsing the serialized textual form back into
a structure (the reading direction of the round trip of section 8; the
repository itself never parses). Succeeds when the whole input is one
value followed only by whitespace. -/
def json_loads (s : String) : Option Json :=
  match parseValue (s.length + 1) s.data with
  | some (j, rest) => if skipWs rest = [] then some j else none
  | none => none

/-- Lookup of a key in a map value, `r[k]` on a dictionary: the value at
the key, or nothing when the value is not a map or lacks the key. -/
def Json.getField : Json → String → Option Json
  | Json.obj fields, k => fields.lookup k
  | _, _ => none

/-- Length of a sequence value, `len(r)` on a list. -/
def Json.arrLength : Json → Option Nat
  | Json.arr items => some items.length
  | _ => none

/-- A string-valued field of a map value. -/
def strField (f : Json) (k : String) : Option String :=
  match f.getField k with
  | some (Json.str s) => some s
  | _ => none

/-- The `findings` sequence of the report, `report["findings"]`. -/
def report_findings (u : Unit) : List Json :=
  match (get_fbla_feedback_report u).getField ("findings") with
  | some (Json.arr items) => items
  | _ => []

/-- A field of the report's `metadata` map, `report["metadata"][k]`. -/
def report_metadata_field (u : Unit) (k : String) : Option Json :=
  ((get_fbla_feedback_report u).getField ("metadata")).bind
    (fun m => m.getField k)

/-- The `category` strings of the findings, in sequence order. -/
def finding_categories (u : Unit) : List String :=
  (report_findings u).filterMap (fun f => strField f ("category"))

/-- The `metadata.search_categories` strings, in sequence order. -/
def search_category_list (u : Unit) : List String :=
  match report_metadata_field u ("search_categories") with
  | some (Json.arr items) =>
      items.filterMap (fun j => match j with | Json.str s => some s | _ => none)
  | _ => []

/-- The substring `pat` occurs in `s` starting at character position `i`. -/
@[reducible] def occursAt (s : String) (pat : String) (i : Nat) : Prop :=
  (s.data.drop i).take pat.data.length = pat.data

/-- The stdout shape claimed by the spec, read literally: three progress
lines, then the banner line printed twice, then the title line, then the
serialized Report body, then the closing completion line, each printed as
a line. This definition follows the spec's words, to be compared with
`fbla_stdout`, which follows the source. -/
def spec_claimed_stdout : String :=
  String.join ((scanner_progress_lines ++
    [banner, banner,
     "FBLA MEMBER ENGAGEMENT ANALYSIS REPORT",
     json_dumps (get_fbla_feedback_report ()),
     "REPORT COMPLETE: Ready for Judge Review."]).map (fun s => s ++ "\n"))

/-- Splitting a character stream into its lines at every line break,
accumulating the current line in reverse. -/
def splitLinesAux : List Char → List Char → List String
  | [], acc => [String.mk acc.reverse]
  | c :: cs, acc =>
      if c = '\x0a' then String.mk acc.reverse :: splitLinesAux cs []
      else splitLinesAux cs (c :: acc)

/-- The lines of the entry point's standard output. -/
def stdout_lines : List String := splitLinesAux fbla_stdout.data []

/-- Claim C1, counterexample: standard output does not consist, in that
order, of three progress lines, then the banner line twice, then the
title line, then the serialized Report body, then the completion line.
The actual output differs from that claimed shape; the banner line occurs
three times among the output lines, while the claimed shape contains it
exactly twice; and no two consecutive output lines are both the banner
line, while the claimed shape puts its two banner lines back to back (the
source prints banner, title, banner, body, banner, not banner, banner,
title, body). -/
theorem fbla_stdout_spec_order_refuted :
    fbla_stdout ≠ spec_claimed_stdout ∧
      stdout_lines.countP (fun l => decide (l = banner)) = 3 ∧
        (stdout_lines.zip stdout_lines.tail).all
          (fun p => !(decide (p.1 = banner) && decide (p.2 = banner))) = true := by
  refine ⟨?_, ?_, ?_⟩
  · decide
  · decide
  · decide

/-- Claim C1, amended: when the program is run as an entry point,
standard output consists, in this exact order, of: three progress lines,
then an empty line, then a banner line of 40 repeated characters, then
the title line, then the banner line again, then the serialized Report
body (indented textual form with 2-space indentation, map keys in
insertion order, sequences in element order), then the banner line a
third time, then an empty line, then the closing completion line (the
final empty string comes from the line break the last print appends). -/
theorem fbla_stdout_exact_line_order :
    stdout_lines = scanner_progress_lines ++
      ["", banner,
       "FBLA MEMBER ENGAGEMENT ANALYSIS REPORT",
       banner] ++
      splitLinesAux (json_dumps (get_fbla_feedback_report ())).data [] ++
      [banner, "",
       "REPORT COMPLETE: Ready for Judge Review.", ""] := by
  decide

/-- Claim C2: for any two calls of the report generator, the two returned
Report values are structurally equal: the generator is a pure constant
function of no inputs, so its result is identical on every invocation. -/
theorem get_fbla_feedback_report_deterministic :
    ∀ u v : Unit, get_fbla_feedback_report u = get_fbla_feedback_report v :=
  fun _ _ => rfl

/-- Claim C3: every Report value returned by the generator has exactly 4
records in its findings sequence and exactly 3 strings in its
recommendations sequence. -/
theorem report_counts_4_findings_3_recommendations :
    ∀ u : Unit,
      (((get_fbla_feedback_report u).getField ("findings")).bind
          Json.arrLength) = some 4 ∧
        (((get_fbla_feedback_report u).getField ("recommendations")).bind
          Json.arrLength) = some 3 :=
  fun _ => ⟨rfl, rfl⟩

/-- Claim C4: for every finding record in the Report returned by the
generator, its sentiment field is an element of the fixed set
containing "Negative", "Critical" and "Mixed". -/
theorem finding_sentiments_in_fixed_set :
    ∀ u : Unit,
      (report_findings u).Forall (fun f =>
        strField f ("sentiment") = some ("Negative") ∨
          strField f ("sentiment") = some ("Critical") ∨
            strField f ("sentiment") = some ("Mixed")) :=
  fun u => by cases u; decide

/-- Claim C5: in the Report returned by the generator, the
`metadata.search_categories` field equals the ordered sequence
["Engagement", "Events", "Judging", "Logistics"]. -/
theorem search_categories_value :
    ∀ u : Unit,
      report_metadata_field u ("search_categories") =
        some (Json.arr [Json.str ("Engagement"), Json.str ("Events"),
          Json.str ("Judging"), Json.str ("Logistics")]) :=
  fun _ => rfl

/-- Claim C6: serializing the Report returned by the generator to its
indented textual form and then parsing that text back yields a structure
equal to the original Report. -/
theorem report_serialization_roundtrip :
    ∀ u : Unit,
      json_loads (json_dumps (get_fbla_feedback_report u)) =
        some (get_fbla_feedback_report u) :=
  fun _ => rfl

/-- Claim C7: running the entry point produces on standard output a text
that contains the title substring and, at a strictly later position, the
completion substring. -/
theorem stdout_title_before_completion :
    ∃ i j : Nat, i < j ∧
      occursAt fbla_stdout ("FBLA MEMBER ENGAGEMENT ANALYSIS REPORT") i ∧
        occursAt fbla_stdout ("REPORT COMPLETE: Ready for Judge Review.") j :=
  ⟨185, 1677, by decide, by decide, by decide⟩

/-- Claim C8: the program has no failure path: the generator is a total
function (it cannot fail, taking no inputs and performing no fallible
I/O, which the embedding reflects by returning `Json` rather than an
`Option`), and the process exit status is always success. -/
theorem fbla_main_always_exits_successfully :
    ∀ u : Unit, (fbla_main u).2 = 0 ∧
      fbla_main u = (String.join ((printed_strings u).map (fun s => s ++ "\n")), 0) :=
  fun _ => ⟨rfl, rfl⟩

/-- Claim C9: in the Report returned by the generator, the ordered
sequence of the findings' category fields is ["Event Engagement",
"Competition", "Networking", "Logistics"]; the finding categories are not
a subset of `metadata.search_categories`, and only "Logistics" occurs in
both sequences. -/
theorem finding_categories_vs_search_categories :
    ∀ u : Unit,
      finding_categories u =
          ["Event Engagement", "Competition", "Networking", "Logistics"] ∧
        (finding_categories u).all
            (fun c => decide (c ∈ search_category_list u)) = false ∧
          (finding_categories u).filter
              (fun c => decide (c ∈ search_category_list u)) = ["Logistics"] ∧
            (search_category_list u).filter
              (fun c => decide (c ∈ finding_categories u)) = ["Logistics"] :=
  fun u => by cases u; decide

/-- Claim C10: in the Report returned by the generator,
`metadata.report_date` equals the literal string "2026-01-03" and
`metadata.source` equals the literal string
"Reddit, FBLA Connect, Member Forums" on every call. -/
theorem metadata_source_and_date_constant :
    ∀ u : Unit,
      report_metadata_field u ("report_date") = some (Json.str ("2026-01-03")) ∧
        report_metadata_field u ("source") =
          some (Json.str ("Reddit, FBLA Connect, Member Forums")) :=
  fun _ => ⟨rfl, rfl⟩
